import Mathlib

/-!
Shallow embedding of the Terminal-Snake engine (`snake.py`) and proofs about
its specification.  Positions and velocities are integer pairs; Python's `%`
on a positive modulus coincides with `Int.emod`.  Randomness (`random.randint`)
is modelled by passing the sampled values as explicit oracle arguments, with
the hypothesis that they lie in `randint`'s inclusive range.
-/

/-- `MAX_X` constant from snake.py. -/
def MAX_X : Int := 60

/-- `MAX_Y` constant from snake.py. -/
def MAX_Y : Int := 20

/-- `SEGMENTS` constant from snake.py. -/
def SEGMENTS : Nat := 10

/-- The mutable fields of the Python `Actor` base class
(`_text`, `_position`, `_velocity`).  `Segment`, `Food` and `Score`
all carry exactly these fields (plus, for `Score`, its point counter,
modelled separately in `ScoreS`). -/
structure Actor where
  text : String
  position : Int × Int
  velocity : Int × Int
  deriving Repr, DecidableEq

/-- A fresh `Actor()` as built by `Actor.__init__`. -/
def Actor.new : Actor := { text := "", position := (0, 0), velocity := (0, 0) }

/-- `Actor.move_next`: per-axis wrap
`x = 1 + (x + vx - 1) % (MAX_X - 2)`, `y = 1 + (y + vy - 1) % (MAX_Y - 2)`. -/
def Actor.move_next (a : Actor) : Actor :=
  { a with position :=
      (1 + (a.position.1 + a.velocity.1 - 1) % (MAX_X - 2),
       1 + (a.position.2 + a.velocity.2 - 1) % (MAX_Y - 2)) }

/-- A position lies in the interior of the bordered grid:
`1 ≤ x ≤ MAX_X − 2` and `1 ≤ y ≤ MAX_Y − 2`. -/
def inGrid (p : Int × Int) : Prop :=
  1 ≤ p.1 ∧ p.1 ≤ MAX_X - 2 ∧ 1 ≤ p.2 ∧ p.2 ≤ MAX_Y - 2

instance (p : Int × Int) : Decidable (inGrid p) := by
  unfold inGrid; infer_instance

namespace Snake

/-- `Snake.grow_head`: capture the head's position, advance the head via
`Actor.move_next`, and insert a fresh "#" segment at the vacated position
directly behind the head (`self._body.insert(1, segment)`).
Python raises on an empty chain (`get_head` indexes `[0]`); that case never
occurs in play and is mapped to the empty list. -/
def grow_head : List Actor → List Actor
  | [] => []
  | h :: t =>
      h.move_next :: ({ Actor.new with text := "#", position := h.position } :: t)

/-- `Snake.trim_tail`: `self._body.pop()` removes the last element. -/
def trim_tail (body : List Actor) : List Actor := body.dropLast

/-- `Snake.move_next(direction)`: set the head's velocity to `direction`,
then `grow_head`, then `trim_tail`. -/
def move_next (direction : Int × Int) : List Actor → List Actor
  | [] => []
  | h :: t => trim_tail (grow_head ({ h with velocity := direction } :: t))

/-- `Snake.__init__`: head glyph "8" at `(int(MAX_X/2), int(MAX_Y/2))` with
velocity `(1, 0)`, then `SEGMENTS` iterations of `grow_head`. -/
def init : List Actor :=
  grow_head^[SEGMENTS]
    [{ text := "8", position := (MAX_X / 2, MAX_Y / 2), velocity := (1, 0) }]

end Snake

/-- `Food.move_random`, with the two `random.randint` samples passed as
oracle arguments (`randint(1, MAX_X-2)` and `randint(1, MAX_Y-2)` guarantee
`1 ≤ x ≤ MAX_X-2`, `1 ≤ y ≤ MAX_Y-2`). -/
def Food.move_random (x y : Int) (f : Actor) : Actor := { f with position := (x, y) }

/-- `Food.__init__`: a fresh Actor with text "@", then `move_random` with the
constructor's randint samples. No other state is consulted. -/
def Food.init (x y : Int) : Actor :=
  Food.move_random x y { Actor.new with text := "@" }

/-- Python `Score`: an `Actor` plus its `_points` counter. -/
structure ScoreS where
  actor : Actor
  points : Int
  deriving Repr, DecidableEq

/-- `Score.add_points`: add to `_points` and refresh the display text. -/
def ScoreS.add_points (points : Int) (s : ScoreS) : ScoreS :=
  { actor := { s.actor with text := "Score: " ++ toString (s.points + points) },
    points := s.points + points }

/-- `Score.__init__`: points 0, position `(1, 0)`, then `add_points(0)`. -/
def ScoreS.init : ScoreS :=
  ScoreS.add_points 0 { actor := { Actor.new with position := (1, 0) }, points := 0 }

/-- The state mutated by `Game.play`'s loop. -/
structure GameState where
  snake : List Actor
  food : Actor
  score : ScoreS
  keepPlaying : Bool
  deriving Repr, DecidableEq

namespace Game

/-- `Game._get_inputs`: feed the direction from the input service to
`Snake.move_next`. -/
def get_inputs (direction : Int × Int) (g : GameState) : GameState :=
  { g with snake := Snake.move_next direction g.snake }

/-- The loop condition of `Game._update_snake`: the head's position equals
the position of some non-head body segment (`get_body()` is the tail of the
chain). `False` on the empty chain, which Python never reaches in play. -/
def collided : List Actor → Bool
  | [] => false
  | h :: t => t.any (fun seg => decide (h.position = seg.position))

/-- The condition of `Game._update_score`: the head's position equals the
food's position. `False` on the empty chain, which Python never reaches. -/
def headOnFood (s : List Actor) (food : Actor) : Bool :=
  match s with
  | [] => false
  | h :: _ => decide (h.position = food.position)

/-- `Game._update_snake`: if the head's position equals any non-head body
segment's position, set `_keep_playing = False`. -/
def update_snake (g : GameState) : GameState :=
  if collided g.snake then { g with keepPlaying := false } else g

/-- `Game._update_score`: when the head's position equals the food's
position, `grow_head` the snake, `add_points(1)`, and `move_random` the food
(the respawn randint samples passed as oracles). -/
def update_score (fx fy : Int) (g : GameState) : GameState :=
  if headOnFood g.snake g.food then
    { g with snake := Snake.grow_head g.snake,
             score := g.score.add_points 1,
             food := Food.move_random fx fy g.food }
  else g

/-- `Game._do_outputs`: the render list `[food, score] + [head] + body`,
which is `food :: score :: snake` since `get_head() :: get_body()` is the
whole chain (Python raises on an empty chain; that never occurs in play). -/
def do_outputs (g : GameState) : List Actor :=
  g.food :: g.score.actor :: g.snake

/-- The body of one `while` iteration of `Game.play`, in source order:
`_get_inputs`, then `_update_snake`, then `_update_score` (`_do_outputs`
is modelled separately by `do_outputs`). -/
def tick (d : Int × Int) (fx fy : Int) (g : GameState) : GameState :=
  update_score fx fy (update_snake (get_inputs d g))

/-- One tick's oracle inputs: the direction returned by the input service
and the food-respawn randint samples (consumed only when feeding fires). -/
structure TickIn where
  dir : Int × Int
  fx : Int
  fy : Int
  deriving Repr

/-- `Game.play`: loop while `_keep_playing`; each iteration runs the four
phases and emits one render list. The oracle-input list bounds the number of
iterations observed. Returns the final state and the per-tick render lists. -/
def play : GameState → List TickIn → GameState × List (List Actor)
  | g, [] => (g, [])
  | g, i :: rest =>
      if g.keepPlaying then
        let g1 := tick i.dir i.fx i.fy g
        let r := play g1 rest
        (r.1, do_outputs g1 :: r.2)
      else (g, [])

/-- `Game.__init__`, with the food constructor's randint samples as oracles:
fresh snake, food and score, `_keep_playing = True`. -/
def init (fx fy : Int) : GameState :=
  { snake := Snake.init, food := Food.init fx fy, score := ScoreS.init,
    keepPlaying := true }

end Game

/-- `N` ordinary moves: fold `Snake.move_next` over a list of per-tick
directions (the directions successive calls of `_get_inputs` would feed). -/
def Snake.moves (ds : List (Int × Int)) (s : List Actor) : List Actor :=
  ds.foldl (fun t d => Snake.move_next d t) s

/-- Modelled from the spec: §4.3 lists the score/feed phase (step 2) before
the collision phase (step 3), with the tie-break "feeding is evaluated
first, collision second".  This composite applies `_update_score` before
`_update_snake`, for comparison with the source-ordered `Game.tick`. -/
def Game.spec_order_tick (d : Int × Int) (fx fy : Int) (g : GameState) : GameState :=
  Game.update_snake (Game.update_score fx fy (Game.get_inputs d g))

/-- A concrete game state in which, after the tick's move with direction
`(1, 0)`, the head lands both on the food and on a body segment's position:
snake `[(5,5) head, (6,5), (4,5)]`, food at `(6,5)`. -/
def bothFireState : GameState :=
  { snake := [{ text := "8", position := (5, 5), velocity := (1, 0) },
              { text := "#", position := (6, 5), velocity := (0, 0) },
              { text := "#", position := (4, 5), velocity := (0, 0) }],
    food := { text := "@", position := (6, 5), velocity := (0, 0) },
    score := ScoreS.init,
    keepPlaying := true }

/-- The state invariant maintained by the game loop: nonempty chain, every
segment and the food in the interior, the score pinned at `(1, 0)`. -/
def InvG (g : GameState) : Prop :=
  g.snake ≠ [] ∧ (∀ a ∈ g.snake, inGrid a.position) ∧
  inGrid g.food.position ∧ g.score.actor.position = (1, 0) ∧
  ∃ n : Int, g.score.actor.text = "Score: " ++ toString n

/-! ## Theorems -/

/-- C4: a single `Actor.move_next` lands each axis in the interior range
([1,58] for x, [1,18] for y), for every starting position and every integer
velocity, and it computes exactly `1 + ((old + delta - 1) % (DIM - 2))`
per axis. -/
theorem move_next_wraps_into_interior (a : Actor) :
    (a.move_next).position.1 = 1 + (a.position.1 + a.velocity.1 - 1) % 58 ∧
    (a.move_next).position.2 = 1 + (a.position.2 + a.velocity.2 - 1) % 18 ∧
    1 ≤ (a.move_next).position.1 ∧ (a.move_next).position.1 ≤ 58 ∧
    1 ≤ (a.move_next).position.2 ∧ (a.move_next).position.2 ≤ 18 := by
  unfold Actor.move_next MAX_X MAX_Y
  refine ⟨rfl, rfl, ?_, ?_, ?_, ?_⟩ <;> simp only [] <;> omega

lemma wrap58_step (x v k : Int) :
    1 + (1 + (x + k - 1) % 58 + v - 1) % 58 = 1 + (x + (k + v) - 1) % 58 := by omega

lemma wrap18_step (x v k : Int) :
    1 + (1 + (x + k - 1) % 18 + v - 1) % 18 = 1 + (x + (k + v) - 1) % 18 := by omega

/-- Closed form for iterated `Actor.move_next`: after `n + 1` steps each
axis holds the wrapped sum of the start position and `n + 1` velocity
deltas, and the velocity is untouched. -/
lemma iterate_move_next (a : Actor) (n : Nat) :
    (Actor.move_next^[n + 1] a).position.1
        = 1 + (a.position.1 + ((n : Int) + 1) * a.velocity.1 - 1) % 58 ∧
    (Actor.move_next^[n + 1] a).position.2
        = 1 + (a.position.2 + ((n : Int) + 1) * a.velocity.2 - 1) % 18 ∧
    (Actor.move_next^[n + 1] a).velocity = a.velocity := by
  induction n with
  | zero =>
      rw [Function.iterate_one]
      refine ⟨?_, ?_, rfl⟩ <;> simp [Actor.move_next, MAX_X, MAX_Y]
  | succ n ih =>
      obtain ⟨h1, h2, h3⟩ := ih
      rw [Function.iterate_succ_apply']
      refine ⟨?_, ?_, ?_⟩
      · show 1 + ((Actor.move_next^[n + 1] a).position.1
            + (Actor.move_next^[n + 1] a).velocity.1 - 1) % (MAX_X - 2) = _
        rw [h1, h3]
        have e : ((n : Int) + 1 + 1) * a.velocity.1
            = ((n : Int) + 1) * a.velocity.1 + a.velocity.1 := by ring
        push_cast
        rw [e]
        exact wrap58_step _ _ _
      · show 1 + ((Actor.move_next^[n + 1] a).position.2
            + (Actor.move_next^[n + 1] a).velocity.2 - 1) % (MAX_Y - 2) = _
        rw [h2, h3]
        have e : ((n : Int) + 1 + 1) * a.velocity.2
            = ((n : Int) + 1) * a.velocity.2 + a.velocity.2 := by ring
        push_cast
        rw [e]
        exact wrap18_step _ _ _
      · show (Actor.move_next^[n + 1] a).velocity = a.velocity
        exact h3

/-- C3 counterexample: iterating `Actor.move_next` exactly
`MAX_X * MAX_Y = 1200` times does *not* return the actor at `(30, 10)` with
velocity `(1, 0)` to its origin; it lands at `(12, 10)`
(1200 is not a multiple of the interior widths 58 and 18). -/
theorem torus_1200_counterexample :
    ((Actor.move_next^[60 * 20]
        { text := "", position := (30, 10), velocity := (1, 0) }).position
      = ((12 : Int), (10 : Int))) ∧
    ((12 : Int), (10 : Int)) ≠ ((30 : Int), (10 : Int)) := by
  constructor
  · obtain ⟨h1, h2, -⟩ :=
      iterate_move_next { text := "", position := (30, 10), velocity := (1, 0) } 1199
    have e : (60 * 20 : Nat) = 1199 + 1 := by norm_num
    rw [e]
    refine Prod.ext ?_ ?_
    · rw [h1]; norm_num
    · rw [h2]; norm_num
  · decide

/-- C3 amended: the true torus period of the interior is
`(MAX_X - 2) * (MAX_Y - 2) = 58 * 18 = 1044`: iterating `Actor.move_next`
1044 times returns every interior-positioned actor with a unit velocity to
its original position. -/
theorem torus_closure_interior_area (a : Actor) (hp : inGrid a.position)
    (hv : a.velocity = (0, -1) ∨ a.velocity = (1, 0) ∨
          a.velocity = (0, 1) ∨ a.velocity = (-1, 0)) :
    (Actor.move_next^[58 * 18] a).position = a.position := by
  obtain ⟨h1, h2, -⟩ := iterate_move_next a 1043
  have e : (58 * 18 : Nat) = 1043 + 1 := by norm_num
  rw [e]
  unfold inGrid MAX_X MAX_Y at hp
  obtain ⟨b1, b2, b3, b4⟩ := hp
  have hv1 : a.velocity.1 = 0 ∨ a.velocity.1 = 1 ∨ a.velocity.1 = -1 := by
    rcases hv with hv | hv | hv | hv <;> rw [hv] <;> decide
  have hv2 : a.velocity.2 = 0 ∨ a.velocity.2 = 1 ∨ a.velocity.2 = -1 := by
    rcases hv with hv | hv | hv | hv <;> rw [hv] <;> decide
  refine Prod.ext ?_ ?_
  · rw [h1]
    push_cast
    rcases hv1 with h | h | h <;> rw [h] <;> omega
  · rw [h2]
    push_cast
    rcases hv2 with h | h | h <;> rw [h] <;> omega

/-- Witness for the amended C3 at the concrete actor `(30, 10)` with
velocity `(1, 0)`. -/
theorem torus_closure_interior_area_witness :
    (Actor.move_next^[58 * 18]
        { text := "", position := (30, 10), velocity := (1, 0) }).position
      = ((30 : Int), (10 : Int)) :=
  torus_closure_interior_area
    { text := "", position := (30, 10), velocity := (1, 0) }
    (by decide) (Or.inr (Or.inl rfl))

/-- C5 counterexample: after one ordinary tick with direction `(1, 0)` the
freshly constructed snake's head is at `(41, 10)`, not `(31, 10)` as
claimed: construction already advances the head ten cells to `(40, 10)`. -/
theorem initial_tick_counterexample :
    (Snake.move_next (1, 0) Snake.init).head?.map Actor.position
      = some ((41 : Int), (10 : Int)) ∧
    some ((41 : Int), (10 : Int)) ≠ some ((31 : Int), (10 : Int)) := by
  constructor
  · decide
  · decide

/-- C5 amended: the freshly constructed snake has 11 segments with the head
at `(40, 10)` (construction starts the head at grid center `(30, 10)` and
each of the ten `grow_head` calls advances it); after one ordinary tick with
no direction change the head is at `(41, 10)`, the new body segment occupies
`(40, 10)`, and the chain length is still 11. -/
theorem initial_snake_first_tick :
    Snake.init.length = 11 ∧
    Snake.init.head?.map Actor.position = some ((40 : Int), (10 : Int)) ∧
    (Snake.init.getLast?).map Actor.position = some ((30 : Int), (10 : Int)) ∧
    (Snake.move_next (1, 0) Snake.init).length = 11 ∧
    (Snake.move_next (1, 0) Snake.init).head?.map Actor.position
      = some ((41 : Int), (10 : Int)) ∧
    ((Snake.move_next (1, 0) Snake.init).drop 1).head?.map Actor.position
      = some ((40 : Int), (10 : Int)) := by
  refine ⟨?_, ?_, ?_, ?_, ?_, ?_⟩ <;> decide

lemma grow_head_length (s : List Actor) (h : s ≠ []) :
    (Snake.grow_head s).length = s.length + 1 := by
  cases s with
  | nil => exact absurd rfl h
  | cons a t => simp [Snake.grow_head]

lemma grow_head_ne_nil (s : List Actor) (h : s ≠ []) :
    Snake.grow_head s ≠ [] := by
  cases s with
  | nil => exact absurd rfl h
  | cons a t => simp [Snake.grow_head]

lemma snake_move_next_length (d : Int × Int) (s : List Actor) (h : s ≠ []) :
    (Snake.move_next d s).length = s.length := by
  cases s with
  | nil => exact absurd rfl h
  | cons a t =>
      simp [Snake.move_next, Snake.grow_head, Snake.trim_tail]

lemma snake_move_next_ne_nil (d : Int × Int) (s : List Actor) (h : s ≠ []) :
    Snake.move_next d s ≠ [] := by
  have hl := snake_move_next_length d s h
  intro hc
  rw [hc] at hl
  cases s with
  | nil => exact h rfl
  | cons a t => simp at hl

lemma moves_length (ds : List (Int × Int)) (s : List Actor) (h : s ≠ []) :
    (Snake.moves ds s).length = s.length ∧ Snake.moves ds s ≠ [] := by
  induction ds generalizing s with
  | nil => exact ⟨rfl, h⟩
  | cons d ds ih =>
      have h1 := snake_move_next_length d s h
      have h2 := snake_move_next_ne_nil d s h
      obtain ⟨ih1, ih2⟩ := ih (Snake.move_next d s) h2
      refine ⟨?_, ?_⟩
      · show (Snake.moves ds (Snake.move_next d s)).length = s.length
        omega
      · exact ih2

/-- C6: ordinary moves preserve the chain length exactly; one unmatched
`grow_head` (the feeding path) makes it `L + 1`, and further ordinary moves
preserve `L + 1`. -/
theorem snake_length_invariant (s : List Actor) (ds ds2 : List (Int × Int))
    (h : s ≠ []) :
    (Snake.moves ds s).length = s.length ∧
    (Snake.grow_head (Snake.moves ds s)).length = s.length + 1 ∧
    (Snake.moves ds2 (Snake.grow_head (Snake.moves ds s))).length
      = s.length + 1 := by
  obtain ⟨h1, h2⟩ := moves_length ds s h
  have h3 := grow_head_length _ h2
  have h4 := grow_head_ne_nil _ h2
  obtain ⟨h5, -⟩ := moves_length ds2 _ h4
  exact ⟨h1, by omega, by omega⟩

/-- Witness for C6 at the concrete initial snake, one ordinary move, one
feed, then one further ordinary move. -/
theorem snake_length_invariant_witness :
    (Snake.moves [((0 : Int), (1 : Int))] Snake.init).length
      = Snake.init.length ∧
    (Snake.grow_head (Snake.moves [((0 : Int), (1 : Int))] Snake.init)).length
      = Snake.init.length + 1 ∧
    (Snake.moves [((1 : Int), (0 : Int))]
        (Snake.grow_head
          (Snake.moves [((0 : Int), (1 : Int))] Snake.init))).length
      = Snake.init.length + 1 :=
  snake_length_invariant Snake.init [(0, 1)] [(1, 0)] (by decide)

lemma update_snake_fields (g : GameState) :
    (Game.update_snake g).snake = g.snake ∧
    (Game.update_snake g).food = g.food ∧
    (Game.update_snake g).score = g.score := by
  unfold Game.update_snake
  split <;> exact ⟨rfl, rfl, rfl⟩

lemma update_score_keepPlaying (fx fy : Int) (g : GameState) :
    (Game.update_score fx fy g).keepPlaying = g.keepPlaying := by
  unfold Game.update_score
  split <;> rfl

lemma update_score_feed (fx fy : Int) (g : GameState)
    (h : Game.headOnFood g.snake g.food = true) :
    Game.update_score fx fy g
      = { g with snake := Snake.grow_head g.snake,
                 score := g.score.add_points 1,
                 food := Food.move_random fx fy g.food } := by
  simp [Game.update_score, h]

lemma update_score_points_le (fx fy : Int) (g : GameState) :
    g.score.points ≤ (Game.update_score fx fy g).score.points := by
  unfold Game.update_score
  split
  · simp [ScoreS.add_points]
  · exact le_refl _

lemma tick_keepPlaying_false_of_collided (d : Int × Int) (fx fy : Int)
    (g : GameState) (h : Game.collided (Snake.move_next d g.snake) = true) :
    (Game.tick d fx fy g).keepPlaying = false := by
  unfold Game.tick
  rw [update_score_keepPlaying]
  simp [Game.update_snake, Game.get_inputs, h]

/-- C1 counterexample: in `bothFireState` the tick's move satisfies both the
feeding and the collision condition, yet the code-ordered tick ends the game
while the spec-ordered tick (feeding evaluated first) does not: the feeding
phase is *not* evaluated before the collision phase. -/
theorem feeding_not_before_collision_counterexample :
    Game.collided (Snake.move_next (1, 0) bothFireState.snake) = true ∧
    Game.headOnFood (Snake.move_next (1, 0) bothFireState.snake)
      bothFireState.food = true ∧
    (Game.tick (1, 0) 2 2 bothFireState).keepPlaying = false ∧
    (Game.spec_order_tick (1, 0) 2 2 bothFireState).keepPlaying = true ∧
    Game.tick (1, 0) 2 2 bothFireState
      ≠ Game.spec_order_tick (1, 0) 2 2 bothFireState := by
  refine ⟨?_, ?_, ?_, ?_, ?_⟩ <;> decide

/-- C1 amended: in every tick in which both the feeding and the collision
condition hold, the collision phase is evaluated first (on the post-move,
pre-growth snake) and the feeding phase second; both fire independently in
that same tick: the game ends, the score increments, the snake grows. -/
theorem collision_evaluated_before_feeding (g : GameState) (d : Int × Int)
    (fx fy : Int)
    (hcol : Game.collided (Snake.move_next d g.snake) = true)
    (hfeed : Game.headOnFood (Snake.move_next d g.snake) g.food = true) :
    Game.tick d fx fy g
      = Game.update_score fx fy (Game.update_snake (Game.get_inputs d g)) ∧
    (Game.tick d fx fy g).keepPlaying = false ∧
    (Game.tick d fx fy g).score.points = g.score.points + 1 ∧
    (Game.tick d fx fy g).snake
      = Snake.grow_head (Snake.move_next d g.snake) := by
  obtain ⟨hs, hf, hsc⟩ := update_snake_fields (Game.get_inputs d g)
  have hfeed' : Game.headOnFood
      (Game.update_snake (Game.get_inputs d g)).snake
      (Game.update_snake (Game.get_inputs d g)).food = true := by
    rw [hs, hf]
    exact hfeed
  have hfe := update_score_feed fx fy _ hfeed'
  refine ⟨rfl, tick_keepPlaying_false_of_collided d fx fy g hcol, ?_, ?_⟩
  · show (Game.update_score fx fy
        (Game.update_snake (Game.get_inputs d g))).score.points = _
    rw [hfe]
    show ((Game.update_snake (Game.get_inputs d g)).score.add_points 1).points = _
    rw [hsc]
    show (Game.get_inputs d g).score.points + 1 = _
    rfl
  · show (Game.update_score fx fy
        (Game.update_snake (Game.get_inputs d g))).snake = _
    rw [hfe]
    show Snake.grow_head (Game.update_snake (Game.get_inputs d g)).snake = _
    rw [hs]
    rfl

/-- Witness for the amended C1 at `bothFireState`. -/
theorem collision_evaluated_before_feeding_witness :
    Game.tick (1, 0) 2 2 bothFireState
      = Game.update_score 2 2
          (Game.update_snake (Game.get_inputs (1, 0) bothFireState)) ∧
    (Game.tick (1, 0) 2 2 bothFireState).keepPlaying = false ∧
    (Game.tick (1, 0) 2 2 bothFireState).score.points
      = bothFireState.score.points + 1 ∧
    (Game.tick (1, 0) 2 2 bothFireState).snake
      = Snake.grow_head (Snake.move_next (1, 0) bothFireState.snake) :=
  collision_evaluated_before_feeding bothFireState (1, 0) 2 2
    (by decide) (by decide)

lemma play_ended (g : GameState) (ins : List Game.TickIn)
    (h : g.keepPlaying = false) : Game.play g ins = (g, []) := by
  cases ins with
  | nil => rfl
  | cons i rest => simp [Game.play, h]

/-- C2 counterexample: on a collision tick the score phase and the render
phase still run after the collision is detected: in `bothFireState` the
collision fires, yet the score increments and the tick's render list is
emitted. -/
theorem collision_tick_still_scores_renders_counterexample :
    Game.collided (Snake.move_next (1, 0) bothFireState.snake) = true ∧
    (Game.tick (1, 0) 2 2 bothFireState).score.points
      = bothFireState.score.points + 1 ∧
    (Game.play bothFireState [⟨(1, 0), 2, 2⟩]).2
      = [Game.do_outputs (Game.tick (1, 0) 2 2 bothFireState)] ∧
    Game.do_outputs (Game.tick (1, 0) 2 2 bothFireState) ≠ [] := by
  refine ⟨?_, ?_, ?_, ?_⟩ <;> decide

/-- C2 amended: on every tick whose move makes the head coincide with a
non-head body segment, `_keep_playing` flips to false and the loop performs
no further iteration; the colliding tick itself still completes its score
phase and emits its render list. -/
theorem collision_ends_loop_after_full_tick (g : GameState) (i : Game.TickIn)
    (rest : List Game.TickIn) (hk : g.keepPlaying = true)
    (hcol : Game.collided (Snake.move_next i.dir g.snake) = true) :
    (Game.tick i.dir i.fx i.fy g).keepPlaying = false ∧
    Game.play g (i :: rest)
      = (Game.tick i.dir i.fx i.fy g,
         [Game.do_outputs (Game.tick i.dir i.fx i.fy g)]) := by
  have h1 := tick_keepPlaying_false_of_collided i.dir i.fx i.fy g hcol
  refine ⟨h1, ?_⟩
  simp [Game.play, hk, play_ended _ rest h1]

/-- Witness for the amended C2 at `bothFireState`. -/
theorem collision_ends_loop_after_full_tick_witness :
    (Game.tick (1, 0) 2 2 bothFireState).keepPlaying = false ∧
    Game.play bothFireState [⟨(1, 0), 2, 2⟩]
      = (Game.tick (1, 0) 2 2 bothFireState,
         [Game.do_outputs (Game.tick (1, 0) 2 2 bothFireState)]) :=
  collision_ends_loop_after_full_tick bothFireState ⟨(1, 0), 2, 2⟩ [] rfl
    (by decide)

lemma tick_points_le (d : Int × Int) (fx fy : Int) (g : GameState) :
    g.score.points ≤ (Game.tick d fx fy g).score.points := by
  unfold Game.tick
  obtain ⟨-, -, hsc⟩ := update_snake_fields (Game.get_inputs d g)
  have h := update_score_points_le fx fy (Game.update_snake (Game.get_inputs d g))
  rw [hsc] at h
  exact h

lemma play_points_le (ins : List Game.TickIn) : ∀ g : GameState,
    g.score.points ≤ (Game.play g ins).1.score.points := by
  induction ins with
  | nil => intro g; exact le_refl _
  | cons i rest ih =>
      intro g
      by_cases hk : g.keepPlaying
      · have h1 := tick_points_le i.dir i.fx i.fy g
        have h2 := ih (Game.tick i.dir i.fx i.fy g)
        simp only [Game.play, hk, if_true]
        omega
      · simp [Game.play, hk]

/-- C9: over any sequence of ticks the score never decreases, and every
feeding tick (post-move head on the food) increments it by exactly 1. -/
theorem score_monotone_and_feed_increments :
    (∀ (g : GameState) (ins : List Game.TickIn),
        g.score.points ≤ (Game.play g ins).1.score.points) ∧
    (∀ (g : GameState) (d : Int × Int) (fx fy : Int),
        Game.headOnFood (Snake.move_next d g.snake) g.food = true →
        (Game.tick d fx fy g).score.points = g.score.points + 1) := by
  constructor
  · intro g ins
    exact play_points_le ins g
  · intro g d fx fy hfeed
    obtain ⟨hs, hf, hsc⟩ := update_snake_fields (Game.get_inputs d g)
    have hfeed' : Game.headOnFood
        (Game.update_snake (Game.get_inputs d g)).snake
        (Game.update_snake (Game.get_inputs d g)).food = true := by
      rw [hs, hf]
      exact hfeed
    have hfe := update_score_feed fx fy _ hfeed'
    show (Game.update_score fx fy
        (Game.update_snake (Game.get_inputs d g))).score.points = _
    rw [hfe]
    show ((Game.update_snake (Game.get_inputs d g)).score.add_points 1).points = _
    rw [hsc]
    rfl

/-- Witness for C9's feeding part at `bothFireState`. -/
theorem score_monotone_and_feed_increments_witness :
    (Game.tick (1, 0) 2 2 bothFireState).score.points
      = bothFireState.score.points + 1 :=
  score_monotone_and_feed_increments.2 bothFireState (1, 0) 2 2 (by decide)

lemma move_next_pos_inGrid (a : Actor) : inGrid (a.move_next).position := by
  unfold Actor.move_next inGrid MAX_X MAX_Y
  refine ⟨?_, ?_, ?_, ?_⟩ <;> simp only [] <;> omega

lemma grow_head_inGrid (s : List Actor) (hs : ∀ a ∈ s, inGrid a.position) :
    ∀ a ∈ Snake.grow_head s, inGrid a.position := by
  cases s with
  | nil => simp [Snake.grow_head]
  | cons h t =>
      intro a ha
      simp only [Snake.grow_head, List.mem_cons] at ha
      rcases ha with ha | ha | ha
      · rw [ha]
        exact move_next_pos_inGrid h
      · rw [ha]
        exact hs h (List.mem_cons_self h t)
      · exact hs a (List.mem_cons_of_mem h ha)

lemma snake_move_next_inGrid (d : Int × Int) (s : List Actor)
    (hs : ∀ a ∈ s, inGrid a.position) :
    ∀ a ∈ Snake.move_next d s, inGrid a.position := by
  cases s with
  | nil => simp [Snake.move_next]
  | cons h t =>
      intro a ha
      simp only [Snake.move_next, Snake.trim_tail] at ha
      have hs' : ∀ b ∈ ({ h with velocity := d } :: t), inGrid b.position := by
        intro b hb
        rcases List.mem_cons.mp hb with hb | hb
        · rw [hb]
          exact hs h (List.mem_cons_self h t)
        · exact hs b (List.mem_cons_of_mem h hb)
      exact grow_head_inGrid _ hs' a (List.dropLast_subset _ ha)

lemma InvG_tick (d : Int × Int) (fx fy : Int) (g : GameState) (hg : InvG g)
    (hr : inGrid (fx, fy)) : InvG (Game.tick d fx fy g) := by
  obtain ⟨h1, h2, h3, h4, h5⟩ := hg
  obtain ⟨hs, hf, hsc⟩ := update_snake_fields (Game.get_inputs d g)
  have hsn2 : (Game.update_snake (Game.get_inputs d g)).snake
      = Snake.move_next d g.snake := by
    rw [hs]; rfl
  have hfo2 : (Game.update_snake (Game.get_inputs d g)).food = g.food := by
    rw [hf]; rfl
  have hsc2 : (Game.update_snake (Game.get_inputs d g)).score = g.score := by
    rw [hsc]; rfl
  have hs1 : Snake.move_next d g.snake ≠ [] := snake_move_next_ne_nil d g.snake h1
  have hs2 : ∀ a ∈ Snake.move_next d g.snake, inGrid a.position :=
    snake_move_next_inGrid d g.snake h2
  show InvG (Game.update_score fx fy (Game.update_snake (Game.get_inputs d g)))
  unfold Game.update_score
  split
  · refine ⟨?_, ?_, ?_, ?_, ?_⟩
    · show Snake.grow_head (Game.update_snake (Game.get_inputs d g)).snake ≠ []
      rw [hsn2]
      exact grow_head_ne_nil _ hs1
    · show ∀ a ∈ Snake.grow_head (Game.update_snake (Game.get_inputs d g)).snake,
          inGrid a.position
      rw [hsn2]
      exact grow_head_inGrid _ hs2
    · show inGrid (fx, fy)
      exact hr
    · show ((Game.update_snake (Game.get_inputs d g)).score.add_points 1).actor.position
          = (1, 0)
      rw [hsc2]
      exact h4
    · show ∃ n : Int,
          ((Game.update_snake (Game.get_inputs d g)).score.add_points 1).actor.text
            = "Score: " ++ toString n
      exact ⟨(Game.update_snake (Game.get_inputs d g)).score.points + 1, rfl⟩
  · refine ⟨?_, ?_, ?_, ?_, ?_⟩
    · rw [hsn2]; exact hs1
    · rw [hsn2]; exact hs2
    · rw [hfo2]; exact h3
    · rw [hsc2]; exact h4
    · rw [hsc2]; exact h5

lemma do_outputs_ok (g : GameState) (hg : InvG g) :
    ∃ (f sc : Actor) (body : List Actor),
      Game.do_outputs g = f :: sc :: body ∧
      inGrid f.position ∧
      (∀ a ∈ body, inGrid a.position) ∧
      sc.position = (1, 0) ∧ ¬ inGrid sc.position ∧
      ∃ n : Int, sc.text = "Score: " ++ toString n := by
  obtain ⟨-, h2, h3, h4, h5⟩ := hg
  refine ⟨g.food, g.score.actor, g.snake, rfl, h3, h2, h4, ?_, h5⟩
  rw [h4]
  decide

lemma play_outputs_ok (ins : List Game.TickIn) : ∀ g : GameState, InvG g →
    (∀ i ∈ ins, inGrid (i.fx, i.fy)) →
    ∀ out ∈ (Game.play g ins).2,
      ∃ (f sc : Actor) (body : List Actor),
        out = f :: sc :: body ∧
        inGrid f.position ∧
        (∀ a ∈ body, inGrid a.position) ∧
        sc.position = (1, 0) ∧ ¬ inGrid sc.position ∧
        ∃ n : Int, sc.text = "Score: " ++ toString n := by
  induction ins with
  | nil =>
      intro g _ _ out hout
      simp [Game.play] at hout
  | cons i rest ih =>
      intro g hg hins out hout
      by_cases hk : g.keepPlaying
      · have hg1 : InvG (Game.tick i.dir i.fx i.fy g) :=
          InvG_tick i.dir i.fx i.fy g hg (hins i (List.mem_cons_self i rest))
        simp only [Game.play, hk, if_true, List.mem_cons] at hout
        rcases hout with hout | hout
        · rw [hout]
          exact do_outputs_ok _ hg1
        · exact ih (Game.tick i.dir i.fx i.fy g) hg1
            (fun j hj => hins j (List.mem_cons_of_mem i hj)) out hout
      · simp [Game.play, hk] at hout

lemma InvG_init (fx fy : Int) (h : inGrid (fx, fy)) : InvG (Game.init fx fy) := by
  refine ⟨?_, ?_, ?_, rfl, 0, ?_⟩
  · show Snake.init ≠ []
    decide
  · show ∀ a ∈ Snake.init, inGrid a.position
    decide
  · exact h
  · show ScoreS.init.actor.text = "Score: " ++ toString (0 : Int)
    decide

/-- C7 counterexample: the very first render list handed to the output
service already contains an actor outside the interior: the score, drawn at
`(1, 0)` on the top border row (`y = 0`). -/
theorem render_includes_border_score_counterexample :
    (Game.play (Game.init 5 5) [⟨(1, 0), 3, 3⟩]).2
      = [Game.do_outputs (Game.tick (1, 0) 3 3 (Game.init 5 5))] ∧
    ∃ a ∈ Game.do_outputs (Game.tick (1, 0) 3 3 (Game.init 5 5)),
      a.position = ((1 : Int), (0 : Int)) ∧ ¬ inGrid a.position := by
  constructor
  · decide
  · decide

/-- C7 amended: every render list the loop hands to the output service has
the shape `food :: score :: chain` (as built by `_do_outputs`), where the
food and every snake segment have interior positions, and the score — the
one exception — is rendered at `(1, 0)` on the top border row, carrying its
"Score: n" glyph. -/
theorem render_positions_interior_except_score (fx fy : Int)
    (ins : List Game.TickIn) (h0 : inGrid (fx, fy))
    (hins : ∀ i ∈ ins, inGrid (i.fx, i.fy)) :
    ∀ out ∈ (Game.play (Game.init fx fy) ins).2,
      ∃ (f sc : Actor) (body : List Actor),
        out = f :: sc :: body ∧
        inGrid f.position ∧
        (∀ a ∈ body, inGrid a.position) ∧
        sc.position = (1, 0) ∧ ¬ inGrid sc.position ∧
        ∃ n : Int, sc.text = "Score: " ++ toString n :=
  play_outputs_ok ins (Game.init fx fy) (InvG_init fx fy h0) hins

/-- Witness for the amended C7: first tick from a fresh game. -/
theorem render_positions_interior_except_score_witness :
    ∃ (f sc : Actor) (body : List Actor),
      Game.do_outputs (Game.tick (1, 0) 3 3 (Game.init 5 5))
        = f :: sc :: body ∧
      inGrid f.position ∧
      (∀ a ∈ body, inGrid a.position) ∧
      sc.position = (1, 0) ∧ ¬ inGrid sc.position ∧
      ∃ n : Int, sc.text = "Score: " ++ toString n :=
  render_positions_interior_except_score 5 5 [⟨(1, 0), 3, 3⟩]
    (by decide) (by decide)
    (Game.do_outputs (Game.tick (1, 0) 3 3 (Game.init 5 5))) (by decide)


lemma wrap58_cancel (x dx : Int) (h1 : 1 ≤ x) (h2 : x ≤ 58) :
    1 + (1 + (x + dx - 1) % 58 + -dx - 1) % 58 = x := by omega

lemma wrap18_cancel (x dx : Int) (h1 : 1 ≤ x) (h2 : x ≤ 18) :
    1 + (1 + (x + dx - 1) % 18 + -dx - 1) % 18 = x := by omega

lemma reverse_head_position (h : Actor) (d : Int × Int) (hp : inGrid h.position) :
    (({ (({ h with velocity := d } : Actor).move_next) with
        velocity := (-d.1, -d.2) } : Actor).move_next).position = h.position := by
  unfold inGrid MAX_X MAX_Y at hp
  obtain ⟨c1, c2, c3, c4⟩ := hp
  refine Prod.ext ?_ ?_
  · show 1 + (1 + (h.position.1 + d.1 - 1) % 58 + -d.1 - 1) % 58 = h.position.1
    exact wrap58_cancel h.position.1 d.1 c1 (by omega)
  · show 1 + (1 + (h.position.2 + d.2 - 1) % 18 + -d.2 - 1) % 18 = h.position.2
    exact wrap18_cancel h.position.2 d.2 c3 (by omega)

lemma collided_of_mem (hd : Actor) (t : List Actor) (seg : Actor)
    (hm : seg ∈ t) (he : hd.position = seg.position) :
    Game.collided (hd :: t) = true := by
  simp only [Game.collided, List.any_eq_true, decide_eq_true_eq]
  exact ⟨seg, hm, he⟩

/-- C8: for every snake of length ≥ 3 with an interior head position, a move
in any direction `d` followed by a move in the exact opposite direction puts
the head back on the position of the segment inserted behind it — the
collision check detects the match on the reversal tick and `_update_snake`
ends the game. -/
theorem reverse_direction_collides (h b1 b2 : Actor) (rest : List Actor)
    (d : Int × Int) (g : GameState) (hp : inGrid h.position)
    (hs : g.snake = Snake.move_next (-d.1, -d.2)
        (Snake.move_next d (h :: b1 :: b2 :: rest))) :
    Game.collided g.snake = true ∧
    (Game.update_snake g).keepPlaying = false := by
  have hc : Game.collided g.snake = true := by
    rw [hs]
    simp only [Snake.move_next, Snake.grow_head, Snake.trim_tail, Actor.new,
      List.dropLast_cons₂]
    exact collided_of_mem _ _ _
      (List.mem_cons_of_mem _ (List.mem_cons_self _ _))
      (reverse_head_position h d hp)
  exact ⟨hc, by simp [Game.update_snake, hc]⟩

/-- Witness for C8: a straight three-segment snake heading right, reversed. -/
theorem reverse_direction_collides_witness :
    Game.collided (Snake.move_next (-1, 0) (Snake.move_next (1, 0)
      [{ text := "8", position := (30, 10), velocity := (1, 0) },
       { text := "#", position := (29, 10), velocity := (0, 0) },
       { text := "#", position := (28, 10), velocity := (0, 0) }])) = true ∧
    (Game.update_snake
      { snake := Snake.move_next (-1, 0) (Snake.move_next (1, 0)
          [{ text := "8", position := (30, 10), velocity := (1, 0) },
           { text := "#", position := (29, 10), velocity := (0, 0) },
           { text := "#", position := (28, 10), velocity := (0, 0) }]),
        food := { text := "@", position := (5, 5), velocity := (0, 0) },
        score := ScoreS.init,
        keepPlaying := true }).keepPlaying = false :=
  reverse_direction_collides
    { text := "8", position := (30, 10), velocity := (1, 0) }
    { text := "#", position := (29, 10), velocity := (0, 0) }
    { text := "#", position := (28, 10), velocity := (0, 0) }
    [] (1, 0)
    { snake := Snake.move_next (-1, 0) (Snake.move_next (1, 0)
        [{ text := "8", position := (30, 10), velocity := (1, 0) },
         { text := "#", position := (29, 10), velocity := (0, 0) },
         { text := "#", position := (28, 10), velocity := (0, 0) }]),
      food := { text := "@", position := (5, 5), velocity := (0, 0) },
      score := ScoreS.init,
      keepPlaying := true }
    (by decide) rfl

/-- C10: with the constructor's `randint` samples `(x, y)` — ranging over
exactly `[1, MAX_X-2] × [1, MAX_Y-2]` — as oracles, `Food.__init__` places
the food at the interior position `(x, y)` via the very `move_random`
operation used on consumption, consulting no other state (in particular no
snake). -/
theorem food_constructor_interior (x y : Int)
    (hx : 1 ≤ x ∧ x ≤ 58) (hy : 1 ≤ y ∧ y ≤ 18) :
    Food.init x y = Food.move_random x y { Actor.new with text := "@" } ∧
    (Food.init x y).position = (x, y) ∧
    inGrid (Food.init x y).position := by
  obtain ⟨hx1, hx2⟩ := hx
  obtain ⟨hy1, hy2⟩ := hy
  refine ⟨rfl, rfl, ?_⟩
  show inGrid (x, y)
  unfold inGrid MAX_X MAX_Y
  refine ⟨hx1, by omega, hy1, by omega⟩

/-- Witness for C10 at samples `(5, 7)`. -/
theorem food_constructor_interior_witness :
    Food.init 5 7 = Food.move_random 5 7 { Actor.new with text := "@" } ∧
    (Food.init 5 7).position = ((5 : Int), (7 : Int)) ∧
    inGrid (Food.init 5 7).position :=
  food_constructor_interior 5 7 (by decide) (by decide)
